import Mathlib

/-!
Verification of the credential-refresh coordination layer of the API client
(axios interceptors plus the Redux auth slice).

The embedding below is a shallow model of the TypeScript source:

* `AuthState` together with the reducers `setAccessToken`, `logoutFulfilled`,
  `logoutRejected` and `logoutPending` embeds the `authSlice` reducers.
* `requestInterceptor` embeds the request interceptor that attaches the
  `Authorization: Bearer <token>` header.
* `step` embeds the response-error interceptor as a transition function over
  the module-level mutable state (`isRefreshing`, `failedQueue`, the per-request
  `_retry` marks, the identity of the request whose handler awaits the refresh
  call, and the Redux auth state).  Each transition emits the list of
  observable actions (renewal calls, enqueues, settlements, resends, logout
  dispatches, pass-throughs) performed by the corresponding source code path.
* `run` folds `step` over a list of events, modelling the single-threaded
  cooperative execution of the event loop: every event's synchronous handler
  runs to its first suspension point before the next event is processed.
-/

/-- The `User` shape of `authSlice.ts`. -/
structure User where
  id : String
  username : String
  email : String
  name : Option String
deriving DecidableEq, Repr

/-- The `status` field of `AuthState` (`idle | loading | succeeded | failed`). -/
inductive AuthStatus
  | idle
  | loading
  | succeeded
  | failed
deriving DecidableEq, Repr

/-- The Redux `AuthState` of `authSlice.ts`. -/
structure AuthState where
  isAuthenticated : Bool
  user : Option User
  accessToken : Option String
  status : AuthStatus
  error : Option String
deriving DecidableEq, Repr

/-- The `initialState` of `authSlice.ts`. -/
def initialAuthState : AuthState :=
  { isAuthenticated := false
    user := none
    accessToken := none
    status := .idle
    error := none }

/-- The `setAccessToken` reducer: `state.accessToken = action.payload`. -/
def setAccessToken (payload : Option String) (s : AuthState) : AuthState :=
  { s with accessToken := payload }

/-- The `logoutUser.pending` reducer: `state.status = 'loading'`. -/
def logoutPending (s : AuthState) : AuthState :=
  { s with status := .loading }

/-- The `logoutUser.fulfilled` reducer: status idle, `isAuthenticated = false`,
`user = null`, `accessToken = null`, `error = null`. -/
def logoutFulfilled (s : AuthState) : AuthState :=
  { s with status := .idle
           isAuthenticated := false
           user := none
           accessToken := none
           error := none }

/-- The `logoutUser.rejected` reducer: status failed, `isAuthenticated = false`,
`user = null`, `accessToken = null`, `error = payload`. -/
def logoutRejected (payload : String) (s : AuthState) : AuthState :=
  { s with status := .failed
           isAuthenticated := false
           user := none
           accessToken := none
           error := some payload }

/-- An outbound request descriptor: the part of `InternalAxiosRequestConfig`
the interceptors touch (`headers` always exists on an axios config, so only
the `Authorization` entry is modelled). -/
structure RequestConfig where
  url : String
  authorization : Option String
deriving DecidableEq, Repr

/-- The request interceptor of `part_001`:
`const token = selectAccessToken(store.getState());
 if (token && config.headers) { config.headers.Authorization = Bearer token }
 return config;`.
A `null` token and the (JavaScript-falsy) empty-string token leave the config
unchanged. -/
def requestInterceptor (token : Option String) (config : RequestConfig) :
    RequestConfig :=
  match token with
  | some t =>
      if t = "" then config
      else { config with authorization := some ("Bearer " ++ t) }
  | none => config

/-- Observable actions performed by the response-error interceptor. -/
inductive Act
  /-- A call `axios.post('/api/auth/refresh', ...)` is issued. -/
  | refreshCall
  /-- A `failedQueue.push` of the continuation of request `rid`. -/
  | enqueued (rid : Nat)
  /-- In `processQueue`, the queued continuation of `rid` resolves with
  `tok`. -/
  | resolveQ (rid : Nat) (tok : String)
  /-- In `processQueue`, the queued continuation of `rid` rejects with the
  refresh error. -/
  | rejectQ (rid : Nat)
  /-- A call `apiClient(originalRequest)` resends request `rid` whose
  `headers.Authorization` was set to `auth`. -/
  | resend (rid : Nat) (auth : String)
  /-- A dispatch of `setAccessToken(tok)` to the store. -/
  | storeToken (tok : String)
  /-- A dispatch of the `logoutUser` thunk to the store. -/
  | logoutDispatch
  /-- The final `return Promise.reject(error)`: the error is propagated to
  the caller unchanged. -/
  | passThrough (rid : Nat)
  /-- `return Promise.reject(refreshError)`: the initiating request's caller
  receives the refresh failure. -/
  | rejectInitiator (rid : Nat)
deriving DecidableEq, Repr

/-- Events driving the interceptor state machine. -/
inductive Ev
  /-- The transport settles request `rid` with an error; `status` is
  `error.response?.status` (`none` when there is no HTTP response, i.e. a
  network failure). -/
  | respError (rid : Nat) (status : Option Nat)
  /-- The in-flight `axios.post('/api/auth/refresh')` fulfills with
  `data.access_token = tok`. -/
  | refreshOk (tok : String)
  /-- The in-flight refresh call rejects. -/
  | refreshErr
  /-- The `logoutUser` thunk settles (`ok = true`: fulfilled, `ok = false`:
  rejected with message `msg`). -/
  | logoutSettled (ok : Bool) (msg : String)
deriving DecidableEq, Repr

/-- The module-level mutable state of `part_001` plus the Redux store slice:
`isRefreshing`, `failedQueue` (as the list of queued request ids in push
order), the set of requests whose `_retry` flag is set, the request whose
interceptor invocation awaits the in-flight refresh call, and the auth
state. -/
structure SysState where
  isRefreshing : Bool
  failedQueue : List Nat
  retrySet : List Nat
  initiator : Option Nat
  auth : AuthState
deriving DecidableEq, Repr

/-- The client state at module load: `isRefreshing = false`,
`failedQueue = []`, no `_retry` marks, and the initial Redux auth state. -/
def initState : SysState :=
  { isRefreshing := false
    failedQueue := []
    retrySet := []
    initiator := none
    auth := initialAuthState }

/-- One transition of the response-error interceptor, translated from
`part_001`:

* `respError rid status` runs the error interceptor body up to its first
  suspension point:
  `if (error.response?.status === 401 && !originalRequest._retry)` —
  if already refreshing, push onto `failedQueue`; otherwise set
  `originalRequest._retry = true; isRefreshing = true` and issue the refresh
  call; in every other case `return Promise.reject(error)`.
* `refreshOk tok` resumes the awaiting handler:
  `store.dispatch(setAccessToken(tok))`, set the initiator's header, then
  `processQueue(null, tok)` (resolving each queued continuation in push
  order, whose `.then` sets `Authorization: Bearer tok` and resends), then
  `return apiClient(originalRequest)`; `finally { isRefreshing = false }`.
* `refreshErr` resumes the catch block:
  `store.dispatch(logoutUser()); processQueue(refreshError, null)` (rejecting
  each queued continuation in push order), `return Promise.reject(refreshError)`;
  `finally { isRefreshing = false }`.
* `logoutSettled` applies the matching `logoutUser` extra-reducer. -/
def step (st : SysState) (e : Ev) : SysState × List Act :=
  match e with
  | .respError rid status =>
      if status = some 401 ∧ rid ∉ st.retrySet then
        if st.isRefreshing then
          ({ st with failedQueue := st.failedQueue ++ [rid] }, [.enqueued rid])
        else
          ({ st with isRefreshing := true
                     retrySet := rid :: st.retrySet
                     initiator := some rid },
           [.refreshCall])
      else
        (st, [.passThrough rid])
  | .refreshOk tok =>
      let settled := st.failedQueue.map fun r => Act.resolveQ r tok
      let resends := st.failedQueue.map fun r => Act.resend r ("Bearer " ++ tok)
      let initAct :=
        match st.initiator with
        | some i => [Act.resend i ("Bearer " ++ tok)]
        | none => []
      ({ st with auth := setAccessToken (some tok) st.auth
                 failedQueue := []
                 isRefreshing := false
                 initiator := none },
       Act.storeToken tok :: (settled ++ initAct ++ resends))
  | .refreshErr =>
      let rejects := st.failedQueue.map Act.rejectQ
      let initAct :=
        match st.initiator with
        | some i => [Act.rejectInitiator i]
        | none => []
      ({ st with auth := logoutPending st.auth
                 failedQueue := []
                 isRefreshing := false
                 initiator := none },
       Act.logoutDispatch :: (rejects ++ initAct))
  | .logoutSettled ok msg =>
      ({ st with auth :=
          if ok then logoutFulfilled st.auth else logoutRejected msg st.auth },
       [])

/-- Fold `step` over a list of events, concatenating the emitted actions. -/
def run (st : SysState) : List Ev → SysState × List Act
  | [] => (st, [])
  | e :: es =>
      let p := step st e
      let q := run p.1 es
      (q.1, p.2 ++ q.2)

/-- Running `run` over appended event lists splits into two runs. -/
theorem run_append (st : SysState) (es fs : List Ev) :
    run st (es ++ fs) =
      ((run (run st es).1 fs).1, (run st es).2 ++ (run (run st es).1 fs).2) := by
  induction es generalizing st with
  | nil => simp [run]
  | cons e es ih =>
      simp [run, ih, List.append_assoc]

/-- While a refresh is in flight, a 401 for a request whose `_retry` flag is
not set only pushes the request onto `failedQueue`; no state other than the
queue changes and no refresh call is issued. -/
theorem step_enqueue (st : SysState) (rid : Nat)
    (hRef : st.isRefreshing = true) (hFresh : rid ∉ st.retrySet) :
    step st (.respError rid (some 401)) =
      ({ st with failedQueue := st.failedQueue ++ [rid] }, [.enqueued rid]) := by
  simp [step, hRef, hFresh]

/-- While a refresh is in flight, a burst of 401s for requests with unset
`_retry` flags enqueues all of them in arrival order and emits no further
refresh call. -/
theorem run_enqueue (rs : List Nat) (st : SysState)
    (hRef : st.isRefreshing = true) (hFresh : ∀ x ∈ rs, x ∉ st.retrySet) :
    run st (rs.map fun r => Ev.respError r (some 401)) =
      ({ st with failedQueue := st.failedQueue ++ rs },
       rs.map Act.enqueued) := by
  induction rs generalizing st with
  | nil => simp [run]
  | cons r rs ih =>
      have hr : r ∉ st.retrySet := hFresh r (by simp)
      have hrs : ∀ x ∈ rs, x ∉ ({ st with failedQueue := st.failedQueue ++ [r] } : SysState).retrySet := by
        intro x hx
        exact hFresh x (by simp [hx])
      simp only [List.map_cons, run, step_enqueue st r hRef hr]
      rw [ih { st with failedQueue := st.failedQueue ++ [r] } hRef hrs]
      simp

/-- C1. Single-flight renewal: starting from an idle coordinator, a burst of
401s for the distinct fresh requests `r :: rs` (none with its `_retry` flag
set) issues exactly one refresh call — by the first 401, which synchronously
sets `isRefreshing` before awaiting — and every later 401 of the burst is
enqueued in order without any additional refresh call. -/
theorem single_flight (st : SysState) (r : Nat) (rs : List Nat)
    (hIdle : st.isRefreshing = false)
    (hr : r ∉ st.retrySet)
    (hrs : ∀ x ∈ rs, x ∉ st.retrySet)
    (hne : ∀ x ∈ rs, x ≠ r) :
    run st ((r :: rs).map fun x => Ev.respError x (some 401)) =
      ({ st with isRefreshing := true
                 retrySet := r :: st.retrySet
                 initiator := some r
                 failedQueue := st.failedQueue ++ rs },
       Act.refreshCall :: rs.map Act.enqueued) ∧
    ((run st ((r :: rs).map fun x => Ev.respError x (some 401))).2.count
        Act.refreshCall = 1) := by
  have hstep : step st (.respError r (some 401)) =
      ({ st with isRefreshing := true
                 retrySet := r :: st.retrySet
                 initiator := some r },
       [.refreshCall]) := by
    simp [step, hIdle, hr]
  have hFresh1 : ∀ x ∈ rs,
      x ∉ ({ st with isRefreshing := true
                     retrySet := r :: st.retrySet
                     initiator := some r } : SysState).retrySet := by
    intro x hx
    simp only [List.mem_cons]
    push_neg
    exact ⟨hne x hx, hrs x hx⟩
  have hrun : run st ((r :: rs).map fun x => Ev.respError x (some 401)) =
      ({ st with isRefreshing := true
                 retrySet := r :: st.retrySet
                 initiator := some r
                 failedQueue := st.failedQueue ++ rs },
       Act.refreshCall :: rs.map Act.enqueued) := by
    simp only [List.map_cons, run, hstep]
    rw [run_enqueue rs _ rfl hFresh1]
    simp
  refine ⟨hrun, ?_⟩
  rw [hrun]
  simp only [List.count_cons_self, List.count_cons]
  have : (rs.map Act.enqueued).count Act.refreshCall = 0 := by
    rw [List.count_eq_zero]
    intro hmem
    rcases List.mem_map.1 hmem with ⟨x, _, hx⟩
    exact Act.noConfusion hx
  omega

/-- Witness for `single_flight`: three requests fail with 401 from the
initial state; exactly one refresh call is issued and the other two are
enqueued in order. -/
theorem single_flight_witness :
    run initState
        (([0, 1, 2] : List Nat).map fun x => Ev.respError x (some 401)) =
      ({ initState with isRefreshing := true
                        retrySet := [0]
                        initiator := some 0
                        failedQueue := [1, 2] },
       [Act.refreshCall, Act.enqueued 1, Act.enqueued 2]) ∧
    ((run initState
        (([0, 1, 2] : List Nat).map fun x => Ev.respError x (some 401))).2.count
        Act.refreshCall = 1) := by
  have h := single_flight initState 0 [1, 2] rfl (by decide) (by decide)
    (by decide)
  refine ⟨?_, h.2⟩
  rw [h.1]
  rfl

/-- C3. FIFO flush: with a refresh in flight initiated by request `i` and an
empty queue, enqueueing `rs` in order and then settling the refresh settles
the queued continuations in exactly the enqueue order — `resolveQ` for each
element of `rs` in order on success, `rejectQ` for each element of `rs` in
order on failure. -/
theorem fifo_flush (st : SysState) (rs : List Nat) (i : Nat) (tok : String)
    (hRef : st.isRefreshing = true) (hq : st.failedQueue = [])
    (hInit : st.initiator = some i)
    (hFresh : ∀ x ∈ rs, x ∉ st.retrySet) :
    (run st ((rs.map fun x => Ev.respError x (some 401)) ++
        [Ev.refreshOk tok])).2 =
      rs.map Act.enqueued ++
        Act.storeToken tok ::
          (rs.map (fun r => Act.resolveQ r tok) ++
            [Act.resend i ("Bearer " ++ tok)] ++
            rs.map (fun r => Act.resend r ("Bearer " ++ tok))) ∧
    (run st ((rs.map fun x => Ev.respError x (some 401)) ++
        [Ev.refreshErr])).2 =
      rs.map Act.enqueued ++
        Act.logoutDispatch ::
          (rs.map Act.rejectQ ++ [Act.rejectInitiator i]) := by
  have henq := run_enqueue rs st hRef hFresh
  have hmid : ({ st with failedQueue := st.failedQueue ++ rs } : SysState) =
      { st with failedQueue := rs } := by
    rw [hq]
    rfl
  constructor
  · rw [run_append, henq, hmid]
    simp [run, step, hInit]
  · rw [run_append, henq, hmid]
    simp [run, step, hInit]

/-- Witness for `fifo_flush`: two requests enqueued in order 1, 2 behind a
refresh initiated by request 0 are settled in that order on success and on
failure. -/
theorem fifo_flush_witness :
    (run { initState with isRefreshing := true
                          retrySet := [0]
                          initiator := some 0 }
        ((([1, 2] : List Nat).map fun x => Ev.respError x (some 401)) ++
          [Ev.refreshOk "T2"])).2 =
      [Act.enqueued 1, Act.enqueued 2, Act.storeToken "T2",
       Act.resolveQ 1 "T2", Act.resolveQ 2 "T2", Act.resend 0 "Bearer T2",
       Act.resend 1 "Bearer T2", Act.resend 2 "Bearer T2"] ∧
    (run { initState with isRefreshing := true
                          retrySet := [0]
                          initiator := some 0 }
        ((([1, 2] : List Nat).map fun x => Ev.respError x (some 401)) ++
          [Ev.refreshErr])).2 =
      [Act.enqueued 1, Act.enqueued 2, Act.logoutDispatch,
       Act.rejectQ 1, Act.rejectQ 2, Act.rejectInitiator 0] := by
  have h := fifo_flush
    { initState with isRefreshing := true, retrySet := [0], initiator := some 0 }
    [1, 2] 0 "T2" rfl rfl rfl (by decide)
  exact ⟨by rw [h.1]; rfl, by rw [h.2]; rfl⟩

/-- C9. Queue lifecycle: when the in-flight refresh settles (either way), the
queue is emptied and `isRefreshing` is reset; each continuation in the queue
is settled exactly once (as many `resolveQ`/`rejectQ` actions as occurrences
of the request in the queue, and never the opposite settlement); and a later
401 for a fresh request `rid` from the post-settle state starts a new,
independent refresh call. -/
theorem queue_lifecycle (st : SysState) (tok : String) (r rid : Nat)
    (hrid : rid ∉ st.retrySet) :
    (step st (.refreshOk tok)).1.failedQueue = [] ∧
    (step st (.refreshOk tok)).1.isRefreshing = false ∧
    (step st .refreshErr).1.failedQueue = [] ∧
    (step st .refreshErr).1.isRefreshing = false ∧
    ((step st (.refreshOk tok)).2.count (Act.resolveQ r tok) =
      st.failedQueue.count r) ∧
    ((step st (.refreshOk tok)).2.count (Act.rejectQ r) = 0) ∧
    ((step st .refreshErr).2.count (Act.rejectQ r) =
      st.failedQueue.count r) ∧
    ((step st .refreshErr).2.count (Act.resolveQ r tok) = 0) ∧
    (step (step st (.refreshOk tok)).1 (.respError rid (some 401))).2 =
      [Act.refreshCall] ∧
    (step (step st .refreshErr).1 (.respError rid (some 401))).2 =
      [Act.refreshCall] := by
  have hinjRes : Function.Injective fun x : Nat => Act.resolveQ x tok := by
    intro a b h
    cases h
    rfl
  have hinjRej : Function.Injective Act.rejectQ := by
    intro a b h
    cases h
    rfl
  refine ⟨rfl, rfl, rfl, rfl, ?_, ?_, ?_, ?_, ?_, ?_⟩
  · cases hI : st.initiator <;>
      simp [step, hI, List.count_cons, List.count_append,
        List.count_map_of_injective _ _ hinjRes, List.count_eq_zero]
  · cases hI : st.initiator <;>
      simp [step, hI, List.count_cons, List.count_append, List.count_eq_zero]
  · cases hI : st.initiator <;>
      simp [step, hI, List.count_cons, List.count_append,
        List.count_map_of_injective _ _ hinjRej, List.count_eq_zero]
  · cases hI : st.initiator <;>
      simp [step, hI, List.count_cons, List.count_append, List.count_eq_zero]
  · simp [step, hrid]
  · simp [step, hrid]

/-- Witness for `queue_lifecycle`: a refreshing state with queue `[1, 2]`,
checked for queued request 1 and fresh request 7. -/
theorem queue_lifecycle_witness :
    (7 : Nat) ∉ ([0] : List Nat) ∧
    (step { initState with isRefreshing := true
                           retrySet := [0]
                           initiator := some 0
                           failedQueue := [1, 2] }
        (.refreshOk "T2")).1.failedQueue = [] ∧
    (step { initState with isRefreshing := true
                           retrySet := [0]
                           initiator := some 0
                           failedQueue := [1, 2] }
        (.refreshOk "T2")).2.count (Act.resolveQ 1 "T2") = 1 := by
  refine ⟨by decide, ?_, ?_⟩
  · exact (queue_lifecycle
      { initState with isRefreshing := true, retrySet := [0],
                       initiator := some 0, failedQueue := [1, 2] }
      "T2" 1 7 (by decide)).1
  · have h := (queue_lifecycle
      { initState with isRefreshing := true, retrySet := [0],
                       initiator := some 0, failedQueue := [1, 2] }
      "T2" 1 7 (by decide)).2.2.2.2.1
    rw [h]
    rfl

/-- C4. Renewal failure: when the refresh call rejects, the coordinator
returns to idle with an empty queue, every one of the `K` queued callers is
rejected (in enqueue order, with the refresh failure as the `SessionExpired`
signal), `logoutUser` is dispatched exactly once — not once per queued
caller — and a single settlement of that one logout thunk clears the
credential, whichever way it settles. -/
theorem renewal_failure (st : SysState) (i : Nat) (s : AuthState)
    (m : String) (hInit : st.initiator = some i) :
    step st .refreshErr =
      ({ st with auth := logoutPending st.auth
                 failedQueue := []
                 isRefreshing := false
                 initiator := none },
       Act.logoutDispatch ::
         (st.failedQueue.map Act.rejectQ ++ [Act.rejectInitiator i])) ∧
    (step st .refreshErr).2.count Act.logoutDispatch = 1 ∧
    (logoutFulfilled s).accessToken = none ∧
    (logoutRejected m s).accessToken = none := by
  refine ⟨by simp [step, hInit], ?_, rfl, rfl⟩
  simp [step, hInit, List.count_cons, List.count_append, List.count_eq_zero]

/-- Witness for `renewal_failure`: three queued callers observe the failure;
one logout dispatch is emitted. -/
theorem renewal_failure_witness :
    step { initState with isRefreshing := true
                          retrySet := [0]
                          initiator := some 0
                          failedQueue := [1, 2, 3] }
        .refreshErr =
      ({ initState with auth := logoutPending initialAuthState
                        retrySet := [0] },
       [Act.logoutDispatch, Act.rejectQ 1, Act.rejectQ 2, Act.rejectQ 3,
        Act.rejectInitiator 0]) ∧
    (step { initState with isRefreshing := true
                           retrySet := [0]
                           initiator := some 0
                           failedQueue := [1, 2, 3] }
        .refreshErr).2.count Act.logoutDispatch = 1 := by
  have h := renewal_failure
    { initState with isRefreshing := true, retrySet := [0],
                     initiator := some 0, failedQueue := [1, 2, 3] }
    0 initialAuthState "Logout failed" rfl
  refine ⟨?_, h.2.1⟩
  rw [h.1]
  rfl

/-- C6. Pass-through: any transport error that is not an HTTP 401 — another
HTTP status such as 500, or a network failure with no HTTP response at all —
is propagated to the caller unchanged: the coordinator state is untouched, no
refresh call is issued, nothing is enqueued and nothing is retried. -/
theorem pass_through (st : SysState) (rid : Nat) (status : Option Nat)
    (h : status ≠ some 401) :
    step st (.respError rid status) = (st, [Act.passThrough rid]) := by
  simp [step, h]

/-- Witness for `pass_through`: a 500 response and a network failure both
pass through unchanged from the initial state. -/
theorem pass_through_witness :
    step initState (.respError 5 (some 500)) =
      (initState, [Act.passThrough 5]) ∧
    step initState (.respError 6 none) = (initState, [Act.passThrough 6]) := by
  exact ⟨pass_through initState 5 (some 500) (by decide),
    pass_through initState 6 none (by decide)⟩

/-- C7. Renewal success: when the refresh call fulfills with token `tok`, the
new token is written to the store (`setAccessToken`), the coordinator returns
to idle, and each waiting request — the initiator `i` and every queued
caller — is resent exactly once carrying `Authorization: Bearer tok`. -/
theorem renewal_success (st : SysState) (i : Nat) (tok : String)
    (hInit : st.initiator = some i)
    (hii : i ∉ st.failedQueue)
    (hnd : st.failedQueue.Nodup) :
    (step st (.refreshOk tok)).1.auth.accessToken = some tok ∧
    (step st (.refreshOk tok)).1.isRefreshing = false ∧
    (step st (.refreshOk tok)).2.count
      (Act.resend i ("Bearer " ++ tok)) = 1 ∧
    ∀ r ∈ st.failedQueue,
      (step st (.refreshOk tok)).2.count
        (Act.resend r ("Bearer " ++ tok)) = 1 := by
  have hinj : Function.Injective
      fun x : Nat => Act.resend x ("Bearer " ++ tok) := by
    intro a b h
    cases h
    rfl
  refine ⟨rfl, rfl, ?_, ?_⟩
  · have hcnt : st.failedQueue.count i = 0 := List.count_eq_zero.2 hii
    simp [step, hInit, List.count_cons, List.count_append,
      List.count_map_of_injective _ _ hinj, hcnt, List.count_eq_zero]
  · intro r hr
    have hri : r ≠ i := fun hEq => hii (hEq ▸ hr)
    have hcnt : st.failedQueue.count r = 1 :=
      List.count_eq_one_of_mem hnd hr
    simp [step, hInit, List.count_cons, List.count_append,
      List.count_map_of_injective _ _ hinj, hcnt, List.count_eq_zero, hri]

/-- Witness for `renewal_success`: initiator 0 with queue `[1, 2]` and token
`T2`; each of 0, 1, 2 is resent once with `Bearer T2`. -/
theorem renewal_success_witness :
    (step { initState with isRefreshing := true
                           retrySet := [0]
                           initiator := some 0
                           failedQueue := [1, 2] }
        (.refreshOk "T2")).1.auth.accessToken = some "T2" ∧
    (step { initState with isRefreshing := true
                           retrySet := [0]
                           initiator := some 0
                           failedQueue := [1, 2] }
        (.refreshOk "T2")).2.count (Act.resend 0 "Bearer T2") = 1 ∧
    (step { initState with isRefreshing := true
                           retrySet := [0]
                           initiator := some 0
                           failedQueue := [1, 2] }
        (.refreshOk "T2")).2.count (Act.resend 1 "Bearer T2") = 1 := by
  have h := renewal_success
    { initState with isRefreshing := true, retrySet := [0],
                     initiator := some 0, failedQueue := [1, 2] }
    0 "T2" rfl (by decide) (by decide)
  refine ⟨h.1, ?_, ?_⟩
  · have := h.2.2.1
    simpa using this
  · have := h.2.2.2 1 (by decide)
    simpa using this

/-- Counterexample to C2 as stated.  The source only sets
`originalRequest._retry = true` on the request that initiates the refresh;
a request enqueued while a refresh is in flight is retried by its queued
continuation without its `_retry` flag ever being set.  Concretely: request 0
initiates a refresh, request 1 is enqueued, the refresh succeeds with `T2`
and request 1 is retried; when request 1's retry fails with 401 again, its
handler starts a second refresh call — so the run contains two refresh
calls, the second triggered by the previously enqueued request 1. -/
theorem at_most_one_retry_counterexample :
    (run initState [.respError 0 (some 401), .respError 1 (some 401),
        .refreshOk "T2"]).2 =
      [Act.refreshCall, Act.enqueued 1, Act.storeToken "T2",
       Act.resolveQ 1 "T2", Act.resend 0 "Bearer T2",
       Act.resend 1 "Bearer T2"] ∧
    (step (run initState [.respError 0 (some 401), .respError 1 (some 401),
        .refreshOk "T2"]).1 (.respError 1 (some 401))).2 =
      [Act.refreshCall] ∧
    (run initState [.respError 0 (some 401), .respError 1 (some 401),
        .refreshOk "T2", .respError 1 (some 401)]).2.count
      Act.refreshCall = 2 := by
  exact ⟨rfl, rfl, rfl⟩

/-- C2 (amended). At-most-one retry holds for any request whose `_retry`
flag is set — in particular the request that initiated a renewal: a further
401 for it triggers no refresh call, is never enqueued, and leaves the
coordinator state unchanged.  It does not hold for requests that were merely
enqueued, whose `_retry` flag is never set. -/
theorem at_most_one_retry_marked (st : SysState) (rid : Nat)
    (h : rid ∈ st.retrySet) :
    (step st (.respError rid (some 401))).1 = st ∧
    (step st (.respError rid (some 401))).2.count Act.refreshCall = 0 ∧
    (step st (.respError rid (some 401))).2.count (Act.enqueued rid) = 0 := by
  refine ⟨by simp [step, h], by simp [step, h], by simp [step, h]⟩

/-- Witness for `at_most_one_retry_marked`: request 0 after its own renewal
cycle (its `_retry` flag set) fails again; no refresh call is made. -/
theorem at_most_one_retry_marked_witness :
    (0 : Nat) ∈ ([0] : List Nat) ∧
    (step { initState with retrySet := [0] }
        (.respError 0 (some 401))).2.count Act.refreshCall = 0 := by
  exact ⟨by decide,
    (at_most_one_retry_marked { initState with retrySet := [0] } 0
      (by decide)).2.1⟩

/-- Counterexample to C5 as stated.  When a request whose `_retry` flag is
set fails with 401 again, the source falls through to
`return Promise.reject(error)`: the raw 401 error is propagated and
`store.dispatch(logoutUser())` is NOT executed on this path.  Concretely:
request 0 initiates a refresh, the refresh succeeds, request 0 is retried
and fails with 401 again — the whole run contains no logout dispatch,
contradicting the claim that SessionInvalidator is invoked. -/
theorem after_retry_counterexample :
    (run initState [.respError 0 (some 401), .refreshOk "T2",
        .respError 0 (some 401)]).2 =
      [Act.refreshCall, Act.storeToken "T2", Act.resend 0 "Bearer T2",
       Act.passThrough 0] ∧
    (run initState [.respError 0 (some 401), .refreshOk "T2",
        .respError 0 (some 401)]).2.count Act.logoutDispatch = 0 := by
  exact ⟨rfl, rfl⟩

/-- C5 (amended). After-retry authentication failure is terminal in the
following sense: for a request whose `_retry` flag is already set, a further
401 attempts no renewal and the error is propagated to the caller unchanged
(the final `Promise.reject(error)`); however no SessionInvalidator /
`logoutUser` dispatch happens on this path, and the caller receives the raw
401 error rather than a distinct `SessionExpired` signal. -/
theorem after_retry_terminal (st : SysState) (rid : Nat)
    (h : rid ∈ st.retrySet) :
    step st (.respError rid (some 401)) = (st, [Act.passThrough rid]) := by
  simp [step, h]

/-- Witness for `after_retry_terminal`: request 3 with its `_retry` flag set
fails with 401 from an idle state; the error passes through unchanged. -/
theorem after_retry_terminal_witness :
    (3 : Nat) ∈ ([3] : List Nat) ∧
    step { initState with retrySet := [3] } (.respError 3 (some 401)) =
      ({ initState with retrySet := [3] }, [Act.passThrough 3]) := by
  exact ⟨by decide,
    after_retry_terminal { initState with retrySet := [3] } 3 (by decide)⟩

/-- C8. Request authorization: when the store holds a (non-empty) token, the
request interceptor sets `Authorization: Bearer <token>`; when the store
holds no token the request is dispatched unchanged — no error is raised, and
a request that had no `Authorization` header still has none. -/
theorem request_authorization (cfg : RequestConfig) (t u : String) :
    (t ≠ "" → requestInterceptor (some t) cfg =
      { cfg with authorization := some ("Bearer " ++ t) }) ∧
    requestInterceptor none cfg = cfg ∧
    (requestInterceptor none
      { url := u, authorization := none }).authorization = none := by
  refine ⟨?_, rfl, rfl⟩
  intro h
  simp [requestInterceptor, h]

/-- Witness for `request_authorization`: token `T1` on a bare request to
`/api/memories`, and the token-less case. -/
theorem request_authorization_witness :
    ("T1" : String) ≠ "" ∧
    requestInterceptor (some "T1")
        { url := "/api/memories", authorization := none } =
      { url := "/api/memories", authorization := some "Bearer T1" } ∧
    requestInterceptor none
        { url := "/api/memories", authorization := none } =
      { url := "/api/memories", authorization := none } := by
  have h := request_authorization
    { url := "/api/memories", authorization := none } "T1" "/api/memories"
  refine ⟨by decide, ?_, h.2.1⟩
  rw [h.1 (by decide)]
  rfl

/-- C10. Invalidation robustness: after the refresh-failure path dispatches
`logoutUser`, the auth state ends cleared — `accessToken = null`,
`user = null`, `isAuthenticated = false` — whether the logout HTTP call
fulfills or rejects, because both the `logoutUser.fulfilled` and the
`logoutUser.rejected` reducers clear the credential and user state. -/
theorem invalidation_robustness (st : SysState) (ok : Bool) (msg : String) :
    (step (step st .refreshErr).1
        (.logoutSettled ok msg)).1.auth.accessToken = none ∧
    (step (step st .refreshErr).1
        (.logoutSettled ok msg)).1.auth.user = none ∧
    (step (step st .refreshErr).1
        (.logoutSettled ok msg)).1.auth.isAuthenticated = false := by
  cases ok <;>
    simp [step, logoutFulfilled, logoutRejected]

